import Mathlib

/-!
# Verification of the row-wise translation driver

A shallow embedding of the notebook's core procedure `translate_column`
(src/main.ipynb): a sequential loop over a dataframe column that renders a
fixed few-shot prompt per row, calls a remote generation service with a
static safety configuration, strips the response, counts successes, prints
progress milestones, and returns a `pd.Series` aligned with the dataframe's
index.  The remote service is modelled as an oracle mapping the call number
(row position) and the rendered prompt to either a response text or an
error; Python exceptions become an explicit `Except`.
-/

namespace VertexTranslation

/-! ## Safety configuration (`generative_models.SafetySetting`) -/

/-- Harm categories of the external generation API that the notebook
references.  `unspecified` stands for the remaining members of the external
enum, which this program never uses. -/
inductive HarmCategory where
  | dangerousContent
  | harassment
  | hateSpeech
  | sexuallyExplicit
  | unspecified
  deriving DecidableEq

/-- Block thresholds of the external generation API.  The notebook only
ever uses `blockNone`. -/
inductive HarmBlockThreshold where
  | blockNone
  | blockOnlyHigh
  | blockMediumAndAbove
  | blockLowAndAbove
  | unspecified
  deriving DecidableEq

/-- One `SafetySetting(category=..., threshold=...)` value. -/
structure SafetySetting where
  category : HarmCategory
  threshold : HarmBlockThreshold
  deriving DecidableEq

/-- The static `safety_config` list built at startup: all four harm
categories set to block nothing. -/
def safety_config : List SafetySetting :=
  [ ⟨.dangerousContent, .blockNone⟩,
    ⟨.harassment, .blockNone⟩,
    ⟨.hateSpeech, .blockNone⟩,
    ⟨.sexuallyExplicit, .blockNone⟩ ]

/-! ## Python-level primitives -/

/-- Errors a run can surface: a failure raised by the remote service call
(network, quota, blocked response, …), the `KeyError` of a missing column,
and the `ValueError` `pd.Series` raises on a length mismatch. -/
inductive PyErr where
  | serviceErr (msg : String)
  | keyErr (name : String)
  | valueErr
  deriving DecidableEq

/-- Whitespace in the sense of Python's `str.strip()` (the ASCII whitespace
characters together with the Unicode space characters `str.isspace`
recognises). -/
def isPySpace (c : Char) : Bool :=
  c = ' ' ∨ c = '\t' ∨ c = '\n' ∨ c = '\x0b' ∨ c = '\x0c' ∨ c = '\r' ∨
    c = '\x85' ∨ c = '\xa0' ∨ c = ' ' ∨
    (0x2000 ≤ c.toNat ∧ c.toNat ≤ 0x200a) ∨
    c = ' ' ∨ c = ' ' ∨ c = ' ' ∨ c = ' ' ∨ c = '　'

/-- Python's `s.strip()`: remove leading and trailing whitespace. -/
def pyStrip (s : String) : String :=
  String.mk (((s.data.dropWhile isPySpace).reverse.dropWhile isPySpace).reverse)

/-- One pass of Python's `str.format` over the template's characters, for a
template whose only replacement field is `{text}` and which contains no
brace escapes: outside a field (`none` state) a `\x7b` opens a field and
any other character is copied; inside a field (`some nm` state) characters
accumulate into the field name until `\x7d`, at which point the value is
substituted when the name is `text`. -/
def pyFormatAux (val : List Char) : List Char → Option (List Char) → List Char
  | [], _ => []
  | c :: rest, some nm =>
      if c = '\x7d' then
        (if nm = "text".data then val else []) ++ pyFormatAux val rest none
      else
        pyFormatAux val rest (some (nm ++ [c]))
  | c :: rest, none =>
      if c = '\x7b' then
        pyFormatAux val rest (some [])
      else
        c :: pyFormatAux val rest none

/-- `template.format(text=val)` for this program's template shape. -/
def pyFormatText (template : String) (val : String) : String :=
  String.mk (pyFormatAux val.data template.data none)

/-! ## The prompt template -/

/-- The `example_prompt` triple-quoted literal of `translate_column`,
verbatim: one worked Thai→English example followed by the `{text}`
placeholder. -/
def example_prompt : String :=
  "\n    Please translate the following Thai YouTube comments from Thai to English and only return the translated text:\n    [Thai Text]\n    ก็สมควรติดแหละ เหมือนไม่ได้กลัวเลยแมสไม่ใส่ไม่เว้นระยะ\n    [English Text]\n    It\x27s no wonder they got infected. It\x27s like they weren\x27t scared at all, not wearing a mask and not social distancing.\n\n    [Thai Text]\n    {text}\n    [English Text]\n    "

/-- The fixed template text before the `{text}` placeholder. -/
def promptPre : String :=
  "\n    Please translate the following Thai YouTube comments from Thai to English and only return the translated text:\n    [Thai Text]\n    ก็สมควรติดแหละ เหมือนไม่ได้กลัวเลยแมสไม่ใส่ไม่เว้นระยะ\n    [English Text]\n    It\x27s no wonder they got infected. It\x27s like they weren\x27t scared at all, not wearing a mask and not social distancing.\n\n    [Thai Text]\n    "

/-- The fixed template text after the `{text}` placeholder. -/
def promptSuf : String :=
  "\n    [English Text]\n    "

/-- `example_prompt.format(text=t)`: the rendered prompt for one row. -/
def renderPrompt (t : String) : String :=
  pyFormatText example_prompt t

/-! ## Data model -/

/-- A dataframe: a row index and named columns.  All columns of a pandas
dataframe share the index's length; theorems hypothesise this where they
need it. -/
structure DataFrame where
  index : List Nat
  columns : List (String × List String)
  deriving DecidableEq

/-- `df[column_name]`: the first column with the given label, if any. -/
def getCol (df : DataFrame) (name : String) : Option (List String) :=
  (df.columns.find? (fun c => c.1 = name)).map (·.2)

/-- One request to the remote service: the rendered prompt and the safety
settings passed alongside it. -/
structure Request where
  prompt : String
  safetySettings : List SafetySetting
  deriving DecidableEq

/-- A `pd.Series` of strings: index labels paired with values. -/
def Series := List (Nat × String)

/-- `pd.Series(vals, index=idx)`: raises `ValueError` when the data and
index lengths differ. -/
def mkSeries (vals : List String) (idx : List Nat) : Except PyErr Series :=
  if vals.length = idx.length then .ok (idx.zip vals) else .error .valueErr

/-- The remote service as an oracle: call number (row position) and
rendered prompt to response text or failure. -/
def Service := Nat → String → Except PyErr String

/-- Trace of the translation loop: the requests issued, the in-loop
milestone prints (each a cumulative success count), the post-loop final
print (absent when an exception aborted the loop), and the raw collected
list or the propagated error. -/
structure RunTrace where
  requests : List Request
  notes : List Nat
  finalNote : Option Nat
  result : Except PyErr (List String)

/-- The `for text in df[column_name]` loop of `translate_column`.
`i` is the position of the next row (the call number), `acc` is
`translated_texts`, `count` is `successful_translation`.  At each
iteration start, when `translated_texts` is non-empty and the success
count is a multiple of 100, a milestone is printed; then the prompt is
rendered and the service called; on success the stripped response text is
appended and the count incremented; on failure the exception is re-raised,
aborting the loop.  After the loop the final count is printed. -/
def runLoop (svc : Service) : List String → Nat → List String → Nat → RunTrace
  | [], _, acc, count =>
      { requests := [], notes := [], finalNote := some count, result := .ok acc }
  | text :: rest, i, acc, count =>
      let notesHere : List Nat :=
        if acc ≠ [] ∧ count % 100 = 0 then [count] else []
      let req : Request := ⟨renderPrompt text, safety_config⟩
      match svc i (renderPrompt text) with
      | .error e =>
          { requests := [req], notes := notesHere, finalNote := none,
            result := .error e }
      | .ok resp =>
          let tr := runLoop svc rest (i + 1) (acc ++ [pyStrip resp]) (count + 1)
          { requests := req :: tr.requests, notes := notesHere ++ tr.notes,
            finalNote := tr.finalNote, result := tr.result }

/-- Output of `translate_column`: the run trace with the raw list turned
into a `pd.Series` on `df.index`, plus the dataframe as it stands after
the call (the body never mutates it, so the state-passing embedding
returns it unchanged). -/
structure RunOut where
  requests : List Request
  notes : List Nat
  finalNote : Option Nat
  result : Except PyErr Series
  dfAfter : DataFrame

/-- `translate_column(df, column_name, model)` with the service oracle in
place of the model handle. -/
def translateColumn (df : DataFrame) (colName : String) (svc : Service) : RunOut :=
  match getCol df colName with
  | none =>
      { requests := [], notes := [], finalNote := none,
        result := .error (.keyErr colName), dfAfter := df }
  | some texts =>
      let tr := runLoop svc texts 0 [] 0
      { requests := tr.requests, notes := tr.notes, finalNote := tr.finalNote,
        result :=
          match tr.result with
          | .error e => .error e
          | .ok acc => mkSeries acc df.index,
        dfAfter := df }

/-- The value inside a successful service reply (defaulting to `""`); only
used under an `isOk` hypothesis. -/
def okD : Except PyErr String → String
  | .ok s => s
  | .error _ => ""

/-- The translations an all-succeeding run collects, starting at call
number `i`: row by row, the stripped text of the service's reply. -/
def expectedOut (svc : Service) : List String → Nat → List String
  | [], _ => []
  | t :: rest, i => pyStrip (okD (svc i (renderPrompt t))) :: expectedOut svc rest (i + 1)

/-- A request as `translate_column` builds it for a row's text. -/
def mkReq (t : String) : Request :=
  ⟨renderPrompt t, safety_config⟩

/-! ## Concrete fixtures used to exercise the theorems -/

/-- A service that always answers `" Hello "`. -/
def svcOk : Service := fun _ _ => .ok " Hello "

/-- A service that fails on the second call (call number 1). -/
def svcFailAt1 : Service := fun i _ =>
  if i = 1 then .error (.serviceErr "quota") else .ok " Hello "

/-- A two-row dataframe. -/
def dfTwo : DataFrame := ⟨[5, 7], [("comment_text", ["ก", "ข"])]⟩

/-- A dataframe with an empty text column and empty index. -/
def dfEmpty : DataFrame := ⟨[], [("comment_text", [])]⟩

/-- A dataframe with 100 rows. -/
def dfHundred : DataFrame :=
  ⟨List.range 100, [("comment_text", List.replicate 100 "ข")]⟩

/-! ## Lemmas about the format model -/

theorem pyFormatAux_copy (val : List Char) (a : List Char) :
    ∀ b : List Char, (∀ c ∈ a, c ≠ '\x7b') →
      pyFormatAux val (a ++ b) none = a ++ pyFormatAux val b none := by
  induction a with
  | nil => intro b _; rfl
  | cons c a ih =>
      intro b h
      have hc : c ≠ '\x7b' := h c (List.mem_cons_self c a)
      simp only [List.cons_append, pyFormatAux, if_neg hc, List.append_eq]
      rw [ih b (fun x hx => h x (List.mem_cons_of_mem c hx))]

theorem pyFormatAux_of_no_brace (val : List Char) (a : List Char)
    (h : ∀ c ∈ a, c ≠ '\x7b') : pyFormatAux val a none = a := by
  have := pyFormatAux_copy val a [] h
  simpa [pyFormatAux] using this

theorem pyFormatAux_field (val rest : List Char) :
    pyFormatAux val ('\x7b' :: 't' :: 'e' :: 'x' :: 't' :: '\x7d' :: rest) none =
      val ++ pyFormatAux val rest none := by
  simp [pyFormatAux]

/-! ## Lemmas about `pyStrip` -/

theorem head?_dropWhile_not (p : α → Bool) (l : List α) {c : α}
    (h : (l.dropWhile p).head? = some c) : p c = false := by
  induction l with
  | nil => simp [List.dropWhile] at h
  | cons x xs ih =>
      rw [List.dropWhile_cons] at h
      by_cases hx : p x = true
      · rw [if_pos hx] at h
        exact ih h
      · rw [if_neg hx] at h
        simp only [List.head?_cons, Option.some.injEq] at h
        subst h
        simpa using hx

theorem dropWhile_eq_self_of_head? (p : α → Bool) (l : List α)
    (h : ∀ c, l.head? = some c → p c = false) : l.dropWhile p = l := by
  cases l with
  | nil => rfl
  | cons x xs =>
      have hx := h x rfl
      simp [List.dropWhile_cons, hx]

theorem pyStrip_data (s : String) :
    (pyStrip s).data =
      ((s.data.dropWhile isPySpace).reverse.dropWhile isPySpace).reverse := rfl

/-- The stripped string is the input with a run of whitespace removed from
each end: internal characters (whitespace included) are untouched. -/
theorem pyStrip_decomp (s : String) :
    ∃ pre suf : List Char,
      s.data = pre ++ (pyStrip s).data ++ suf ∧
      (∀ c ∈ pre, isPySpace c = true) ∧ (∀ c ∈ suf, isPySpace c = true) := by
  refine ⟨s.data.takeWhile isPySpace,
    ((s.data.dropWhile isPySpace).reverse.takeWhile isPySpace).reverse, ?_, ?_, ?_⟩
  · rw [pyStrip_data]
    conv_lhs => rw [← List.takeWhile_append_dropWhile (p := isPySpace) (l := s.data)]
    rw [List.append_assoc]
    congr 1
    conv_lhs =>
      rw [← List.reverse_reverse (s.data.dropWhile isPySpace),
        ← List.takeWhile_append_dropWhile (p := isPySpace)
          (l := (s.data.dropWhile isPySpace).reverse)]
    rw [List.reverse_append]
  · exact fun c hc => List.mem_takeWhile_imp hc
  · intro c hc
    rw [List.mem_reverse] at hc
    exact List.mem_takeWhile_imp hc

theorem pyStrip_head (s : String) {c : Char}
    (h : (pyStrip s).data.head? = some c) : isPySpace c = false := by
  rw [pyStrip_data, List.head?_reverse] at h
  set d := s.data.dropWhile isPySpace with hd
  have hne : d.reverse.dropWhile isPySpace ≠ [] := by
    intro hnil
    rw [hnil] at h
    simp at h
  have h2 : d.head? = some c := by
    rw [← List.getLast?_reverse,
      ← List.takeWhile_append_dropWhile (p := isPySpace) (l := d.reverse),
      List.getLast?_append_of_ne_nil _ hne]
    exact h
  exact head?_dropWhile_not isPySpace _ h2

theorem pyStrip_last (s : String) {c : Char}
    (h : (pyStrip s).data.getLast? = some c) : isPySpace c = false := by
  rw [pyStrip_data, List.getLast?_reverse] at h
  exact head?_dropWhile_not isPySpace _ h

/-- Stripping is idempotent: a second `strip()` changes nothing. -/
theorem pyStrip_idem (s : String) : pyStrip (pyStrip s) = pyStrip s := by
  have h1 : (pyStrip s).data.dropWhile isPySpace = (pyStrip s).data :=
    dropWhile_eq_self_of_head? _ _ (fun c hc => pyStrip_head s hc)
  have h2 : (pyStrip s).data.reverse.dropWhile isPySpace = (pyStrip s).data.reverse := by
    refine dropWhile_eq_self_of_head? _ _ (fun c hc => ?_)
    rw [List.head?_reverse] at hc
    exact pyStrip_last s hc
  show String.mk _ = pyStrip s
  rw [show (pyStrip s) = String.mk (pyStrip s).data from rfl]
  congr 1
  rw [show (String.mk (pyStrip s).data).data = (pyStrip s).data from rfl,
    h1, h2, List.reverse_reverse]


theorem expectedOut_length (svc : Service) :
    ∀ (texts : List String) (i : Nat), (expectedOut svc texts i).length = texts.length := by
  intro texts
  induction texts with
  | nil => intro i; rfl
  | cons t rest ih => intro i; simp [expectedOut, ih]

theorem expectedOut_get (svc : Service) :
    ∀ (texts : List String) (i j : Nat) (hj : j < texts.length)
      (hj2 : j < (expectedOut svc texts i).length),
      (expectedOut svc texts i).get ⟨j, hj2⟩ =
        pyStrip (okD (svc (i + j) (renderPrompt (texts.get ⟨j, hj⟩)))) := by
  intro texts
  induction texts with
  | nil => intro i j hj hj2; exact absurd hj (Nat.not_lt_zero j)
  | cons t rest ih =>
      intro i j hj hj2
      cases j with
      | zero => simp [expectedOut]
      | succ j' =>
          have hj' : j' < rest.length := Nat.lt_of_succ_lt_succ hj
          have hj2' : j' < (expectedOut svc rest (i + 1)).length := by
            rw [expectedOut_length]; exact hj'
          have hih := ih (i + 1) j' hj' hj2'
          have hidx : i + 1 + j' = i + (j' + 1) := by omega
          simp only [expectedOut, List.get_cons_succ]
          rw [hih, hidx]

/-- The milestone check at the head of an iteration, composed with the
milestones of the remaining iterations, is the milestone filter over the
whole range of iteration counts.  (The loop's guard `translated_texts and
successful_translation % 100 == 0` is `count ≠ 0 ∧ count % 100 = 0` since
the list's length is the count.) -/
theorem notesHere_filter (acc : List String) (n : Nat) :
    (if acc ≠ [] ∧ acc.length % 100 = 0 then [acc.length] else []) ++
      (List.range' (acc.length + 1) n).filter (fun c => decide (c ≠ 0 ∧ c % 100 = 0)) =
    (List.range' acc.length (n + 1)).filter (fun c => decide (c ≠ 0 ∧ c % 100 = 0)) := by
  conv_rhs => rw [List.range'_succ, List.filter_cons]
  simp only [decide_eq_true_eq]
  by_cases h1 : acc = []
  · subst h1
    simp
  · have hne : acc.length ≠ 0 := by simpa [List.length_eq_zero] using h1
    by_cases h2 : acc.length % 100 = 0
    · rw [if_pos ⟨h1, h2⟩, if_pos ⟨hne, h2⟩]
      rfl
    · rw [if_neg (by tauto), if_neg (by tauto)]
      rfl

theorem runLoop_ok (svc : Service) :
    ∀ (texts : List String) (i : Nat) (acc : List String),
      (∀ j (hj : j < texts.length),
        (svc (i + j) (renderPrompt (texts.get ⟨j, hj⟩))).isOk = true) →
      runLoop svc texts i acc acc.length =
        { requests := texts.map mkReq,
          notes := (List.range' acc.length texts.length).filter
            (fun c => decide (c ≠ 0 ∧ c % 100 = 0)),
          finalNote := some (acc.length + texts.length),
          result := .ok (acc ++ expectedOut svc texts i) } := by
  intro texts
  induction texts with
  | nil =>
      intro i acc h
      simp [runLoop, expectedOut]
  | cons t rest ih =>
      intro i acc h
      have h0 : (svc i (renderPrompt t)).isOk = true := by
        have := h 0 (Nat.succ_pos rest.length)
        simpa using this
      obtain ⟨r, hr⟩ : ∃ r, svc i (renderPrompt t) = .ok r := by
        cases hsvc : svc i (renderPrompt t) with
        | ok r => exact ⟨r, rfl⟩
        | error e => rw [hsvc] at h0; simp [Except.isOk, Except.toBool] at h0
      have hshift : ∀ j (hj : j < rest.length),
          (svc (i + 1 + j) (renderPrompt (rest.get ⟨j, hj⟩))).isOk = true := by
        intro j hj
        have := h (j + 1) (Nat.succ_lt_succ hj)
        have hrw : i + (j + 1) = i + 1 + j := by omega
        rw [hrw] at this
        simpa using this
      have hlen : acc.length + 1 = (acc ++ [pyStrip r]).length := by simp
      have ih' := ih (i + 1) (acc ++ [pyStrip r]) hshift
      simp only [runLoop, hr]
      rw [hlen, ih']
      simp only [RunTrace.mk.injEq]
      refine ⟨by simp [mkReq], ?_, ?_, ?_⟩
      · simp only [List.length_append, List.length_cons, List.length_nil, Nat.zero_add,
          List.length_cons]
        exact notesHere_filter acc rest.length
      · simp only [List.length_append, List.length_cons, List.length_nil, Option.some.injEq]
        omega
      · simp [expectedOut, hr, okD, List.append_assoc]

theorem runLoop_fail (svc : Service) :
    ∀ (texts : List String) (j : Nat) (i : Nat) (acc : List String)
      (hj : j < texts.length) (e : PyErr),
      (∀ j' (hj' : j' < j),
        (svc (i + j') (renderPrompt (texts.get ⟨j', hj'.trans hj⟩))).isOk = true) →
      svc (i + j) (renderPrompt (texts.get ⟨j, hj⟩)) = .error e →
      runLoop svc texts i acc acc.length =
        { requests := (texts.take (j + 1)).map mkReq,
          notes := (List.range' acc.length (j + 1)).filter
            (fun c => decide (c ≠ 0 ∧ c % 100 = 0)),
          finalNote := none,
          result := .error e } := by
  intro texts
  induction texts with
  | nil => intro j i acc hj; exact absurd hj (Nat.not_lt_zero j)
  | cons t rest ih =>
      intro j i acc hj e hpre hfail
      cases j with
      | zero =>
          have hfail2 : svc i (renderPrompt t) = .error e := hfail
          simp only [runLoop, hfail2]
          simp only [RunTrace.mk.injEq]
          refine ⟨by simp [mkReq], ?_, by trivial, by trivial⟩
          simpa using notesHere_filter acc 0
      | succ j' =>
          have h0 : (svc i (renderPrompt t)).isOk = true := by
            have := hpre 0 (Nat.succ_pos j')
            simpa using this
          obtain ⟨r, hr⟩ : ∃ r, svc i (renderPrompt t) = .ok r := by
            cases hsvc : svc i (renderPrompt t) with
            | ok r => exact ⟨r, rfl⟩
            | error e => rw [hsvc] at h0; simp [Except.isOk, Except.toBool] at h0
          have hj'' : j' < rest.length := Nat.lt_of_succ_lt_succ hj
          have hpre' : ∀ k (hk : k < j'),
              (svc (i + 1 + k) (renderPrompt (rest.get ⟨k, hk.trans hj''⟩))).isOk = true := by
            intro k hk
            have := hpre (k + 1) (Nat.succ_lt_succ hk)
            have hrw : i + (k + 1) = i + 1 + k := by omega
            rw [hrw] at this
            simpa using this
          have hfail' : svc (i + 1 + j') (renderPrompt (rest.get ⟨j', hj''⟩)) = .error e := by
            have hrw : i + (j' + 1) = i + 1 + j' := by omega
            rw [hrw] at hfail
            simpa using hfail
          have hlen : acc.length + 1 = (acc ++ [pyStrip r]).length := by simp
          have ih' := ih j' (i + 1) (acc ++ [pyStrip r]) hj'' e hpre' hfail'
          simp only [runLoop, hr]
          rw [hlen, ih']
          simp only [RunTrace.mk.injEq]
          refine ⟨by simp [mkReq, List.take_succ_cons], ?_, by trivial, by trivial⟩
          simp only [List.length_append, List.length_cons, List.length_nil, Nat.zero_add]
          exact notesHere_filter acc (j' + 1)

theorem runLoop_requests_safety (svc : Service) :
    ∀ (texts : List String) (i : Nat) (acc : List String) (count : Nat),
      ∀ req ∈ (runLoop svc texts i acc count).requests,
        req.safetySettings = safety_config := by
  intro texts
  induction texts with
  | nil => intro i acc count req hreq; simp [runLoop] at hreq
  | cons t rest ih =>
      intro i acc count req hreq
      simp only [runLoop] at hreq
      cases hsvc : svc i (renderPrompt t) with
      | error e =>
          rw [hsvc] at hreq
          simp only [List.mem_singleton] at hreq
          subst hreq
          rfl
      | ok r =>
          rw [hsvc] at hreq
          simp only [List.mem_cons] at hreq
          rcases hreq with hreq | hreq
          · subst hreq; rfl
          · exact ih (i + 1) (acc ++ [pyStrip r]) (count + 1) req hreq

/-! ## Claim theorems -/


set_option maxRecDepth 40000 in
theorem example_prompt_split :
    example_prompt.data =
      promptPre.data ++ ('\x7b' :: 't' :: 'e' :: 'x' :: 't' :: '\x7d' :: promptSuf.data) := by
  decide

set_option maxRecDepth 40000 in
theorem promptPre_no_brace : ∀ c ∈ promptPre.data, c ≠ '\x7b' := by
  decide

theorem promptSuf_no_brace : ∀ c ∈ promptSuf.data, c ≠ '\x7b' := by
  decide

set_option maxRecDepth 40000 in
theorem example_prompt_eq : example_prompt = promptPre ++ "{text}" ++ promptSuf := by
  decide

/-- C4: every row's prompt is the fixed template with the row's raw text
substituted verbatim for the single `{text}` placeholder — no escaping or
sanitization — and the rest of the rendered prompt is exactly the fixed
template text (`example_prompt` splits as prefix, placeholder, suffix). -/
theorem prompt_substitution_verbatim (t : String) :
    renderPrompt t = promptPre ++ t ++ promptSuf ∧
    example_prompt = promptPre ++ "{text}" ++ promptSuf := by
  refine ⟨?_, example_prompt_eq⟩
  have h2 : pyFormatAux t.data example_prompt.data none =
      (promptPre.data ++ t.data) ++ promptSuf.data := by
    rw [example_prompt_split,
      pyFormatAux_copy t.data promptPre.data _ promptPre_no_brace,
      pyFormatAux_field, pyFormatAux_of_no_brace t.data promptSuf.data promptSuf_no_brace,
      List.append_assoc]
  apply String.ext
  show (String.mk (pyFormatAux t.data example_prompt.data none)).data = _
  rw [show (String.mk (pyFormatAux t.data example_prompt.data none)).data =
      pyFormatAux t.data example_prompt.data none from rfl, h2]
  show (promptPre.data ++ t.data) ++ promptSuf.data = (promptPre ++ t ++ promptSuf).data
  rfl

/-- C1: on a dataset whose text column has `n` rows, if the service call
succeeds on every row, `translate_column` returns a series of exactly `n`
strings whose entry `i` is the trimmed model response for row `i`, paired
with the dataframe's index label `i` — no row skipped, reordered or
duplicated. -/
theorem translate_success_alignment
    (df : DataFrame) (colName : String) (svc : Service) (texts : List String)
    (hcol : getCol df colName = some texts)
    (hlen : df.index.length = texts.length)
    (hok : ∀ j (hj : j < texts.length),
      (svc j (renderPrompt (texts.get ⟨j, hj⟩))).isOk = true) :
    ∃ ser : Series,
      (translateColumn df colName svc).result = .ok ser ∧
      ser.length = texts.length ∧
      ∀ j (hj : j < texts.length) (hj1 : j < ser.length) (hj2 : j < df.index.length),
        ser.get ⟨j, hj1⟩ =
          (df.index.get ⟨j, hj2⟩,
            pyStrip (okD (svc j (renderPrompt (texts.get ⟨j, hj⟩))))) := by
  have hok0 : ∀ j (hj : j < texts.length),
      (svc (0 + j) (renderPrompt (texts.get ⟨j, hj⟩))).isOk = true := by
    intro j hj
    have := hok j hj
    simpa using this
  have hloop : runLoop svc texts 0 [] 0 =
      { requests := texts.map mkReq,
        notes := (List.range' 0 texts.length).filter
          (fun c => decide (c ≠ 0 ∧ c % 100 = 0)),
        finalNote := some (0 + texts.length),
        result := .ok ([] ++ expectedOut svc texts 0) } :=
    runLoop_ok svc texts 0 [] hok0
  refine ⟨df.index.zip (expectedOut svc texts 0), ?_, ?_, ?_⟩
  · simp only [translateColumn, hcol, hloop]
    rw [show ([] ++ expectedOut svc texts 0) = expectedOut svc texts 0 from
      List.nil_append _]
    rw [mkSeries, if_pos (by rw [expectedOut_length, hlen])]
  · rw [List.length_zip, expectedOut_length, hlen, Nat.min_self]
  · intro j hj hj1 hj2
    have hj3 : j < (expectedOut svc texts 0).length := by
      rw [expectedOut_length]
      exact hj
    have hexp := expectedOut_get svc texts 0 j hj hj3
    simp only [List.get_eq_getElem] at hexp ⊢
    rw [List.getElem_zip, hexp]
    simp

/-- C2: if the service call fails on row `j` (0-indexed) after rows
`0..j-1` succeeded, `translate_column` returns no result sequence: the very
error is propagated, no final notification is printed, and exactly one
request was issued per row `0..j` (no retry, no skip); the error value
carries none of the earlier successful translations. -/
theorem translate_failure_aborts
    (df : DataFrame) (colName : String) (svc : Service) (texts : List String)
    (j : Nat) (e : PyErr)
    (hcol : getCol df colName = some texts)
    (hj : j < texts.length)
    (hpre : ∀ k (hk : k < j),
      (svc k (renderPrompt (texts.get ⟨k, hk.trans hj⟩))).isOk = true)
    (hfail : svc j (renderPrompt (texts.get ⟨j, hj⟩)) = .error e) :
    (translateColumn df colName svc).result = .error e ∧
    (translateColumn df colName svc).finalNote = none ∧
    (translateColumn df colName svc).requests = (texts.take (j + 1)).map mkReq := by
  have hpre0 : ∀ k (hk : k < j),
      (svc (0 + k) (renderPrompt (texts.get ⟨k, hk.trans hj⟩))).isOk = true := by
    intro k hk
    have := hpre k hk
    simpa using this
  have hfail0 : svc (0 + j) (renderPrompt (texts.get ⟨j, hj⟩)) = .error e := by
    simpa using hfail
  have hloop : runLoop svc texts 0 [] 0 =
      { requests := (texts.take (j + 1)).map mkReq,
        notes := (List.range' 0 (j + 1)).filter
          (fun c => decide (c ≠ 0 ∧ c % 100 = 0)),
        finalNote := none,
        result := .error e } :=
    runLoop_fail svc texts j 0 [] hj e hpre0 hfail0
  refine ⟨?_, ?_, ?_⟩ <;> simp only [translateColumn, hcol, hloop]

/-- C3: on a fully successful run, for every `k ≥ 1` with `100k ≤ n`, the
notification stream (the in-loop milestone prints followed by the post-loop
final print, all of the same `Successful translation: c` shape) cites the
cumulative count `100k` exactly once, and the final notification cites the
total count `n`.  (For `n = 231`: milestones citing 100 and 200, final
citing 231.) -/
theorem progress_milestone_counts
    (df : DataFrame) (colName : String) (svc : Service) (texts : List String)
    (k : Nat)
    (hcol : getCol df colName = some texts)
    (hok : ∀ j (hj : j < texts.length),
      (svc j (renderPrompt (texts.get ⟨j, hj⟩))).isOk = true)
    (hk : 1 ≤ k) (hkn : 100 * k ≤ texts.length) :
    ((translateColumn df colName svc).notes ++
      (translateColumn df colName svc).finalNote.toList).count (100 * k) = 1 ∧
    (translateColumn df colName svc).finalNote = some texts.length := by
  have hok0 : ∀ j (hj : j < texts.length),
      (svc (0 + j) (renderPrompt (texts.get ⟨j, hj⟩))).isOk = true := by
    intro j hj
    have := hok j hj
    simpa using this
  have hloop : runLoop svc texts 0 [] 0 =
      { requests := texts.map mkReq,
        notes := (List.range' 0 texts.length).filter
          (fun c => decide (c ≠ 0 ∧ c % 100 = 0)),
        finalNote := some (0 + texts.length),
        result := .ok ([] ++ expectedOut svc texts 0) } :=
    runLoop_ok svc texts 0 [] hok0
  have hnotes : (translateColumn df colName svc).notes =
      (List.range texts.length).filter (fun c => decide (c ≠ 0 ∧ c % 100 = 0)) := by
    simp only [translateColumn, hcol, hloop]
    rw [List.range_eq_range']
  have hfinal : (translateColumn df colName svc).finalNote = some texts.length := by
    simp only [translateColumn, hcol, hloop]
    simp
  refine ⟨?_, hfinal⟩
  rw [hnotes, hfinal, List.count_append]
  have hnodup : ((List.range texts.length).filter
      (fun c => decide (c ≠ 0 ∧ c % 100 = 0))).Nodup :=
    (List.nodup_range texts.length).filter _
  have hmod : 100 * k % 100 = 0 := Nat.mul_mod_right 100 k
  have hne : 100 * k ≠ 0 := by omega
  rcases Nat.lt_or_ge (100 * k) texts.length with hlt | hge
  · have hmem : 100 * k ∈ (List.range texts.length).filter
        (fun c => decide (c ≠ 0 ∧ c % 100 = 0)) := by
      rw [List.mem_filter]
      exact ⟨List.mem_range.mpr hlt, by simp [hne, hmod]⟩
    have hc2 : List.count (100 * k) (some texts.length).toList = 0 := by
      have hne2 : texts.length ≠ 100 * k := by omega
      simp [List.count_singleton', hne2]
    rw [List.count_eq_one_of_mem hnodup hmem, hc2]
  · have heq : 100 * k = texts.length := by omega
    have hnmem : 100 * k ∉ (List.range texts.length).filter
        (fun c => decide (c ≠ 0 ∧ c % 100 = 0)) := by
      intro hmem
      rw [List.mem_filter, List.mem_range] at hmem
      omega
    rw [List.count_eq_zero.mpr hnmem, heq]
    simp [List.count_singleton']

/-- C9: an in-loop milestone citing `c` is emitted only at the start of a
later iteration, hence only when a row after the `c`-th successful row
exists (`c < n`); so on an all-succeeding run of exactly `100m` rows the
count `100m` never appears as an in-loop milestone — it appears only in the
single post-loop final notification. -/
theorem milestone_requires_subsequent_row
    (df : DataFrame) (colName : String) (svc : Service) (texts : List String)
    (m : Nat)
    (hcol : getCol df colName = some texts)
    (hok : ∀ j (hj : j < texts.length),
      (svc j (renderPrompt (texts.get ⟨j, hj⟩))).isOk = true)
    (hm : 1 ≤ m) (hlen : texts.length = 100 * m) :
    (∀ c ∈ (translateColumn df colName svc).notes, c < texts.length) ∧
    100 * m ∉ (translateColumn df colName svc).notes ∧
    (translateColumn df colName svc).finalNote = some (100 * m) := by
  have hok0 : ∀ j (hj : j < texts.length),
      (svc (0 + j) (renderPrompt (texts.get ⟨j, hj⟩))).isOk = true := by
    intro j hj
    have := hok j hj
    simpa using this
  have hloop : runLoop svc texts 0 [] 0 =
      { requests := texts.map mkReq,
        notes := (List.range' 0 texts.length).filter
          (fun c => decide (c ≠ 0 ∧ c % 100 = 0)),
        finalNote := some (0 + texts.length),
        result := .ok ([] ++ expectedOut svc texts 0) } :=
    runLoop_ok svc texts 0 [] hok0
  have hnotes : (translateColumn df colName svc).notes =
      (List.range texts.length).filter (fun c => decide (c ≠ 0 ∧ c % 100 = 0)) := by
    simp only [translateColumn, hcol, hloop]
    rw [List.range_eq_range']
  refine ⟨?_, ?_, ?_⟩
  · intro c hc
    rw [hnotes, List.mem_filter, List.mem_range] at hc
    exact hc.1
  · rw [hnotes]
    intro hmem
    rw [List.mem_filter, List.mem_range, hlen] at hmem
    omega
  · simp only [translateColumn, hcol, hloop]
    simp [hlen]

/-- C10: on a dataset whose text column has zero rows, `translate_column`
makes no service call, emits no in-loop milestone, emits exactly one final
notification citing 0, and returns the empty series on the empty index. -/
theorem empty_column_run
    (df : DataFrame) (colName : String) (svc : Service)
    (hcol : getCol df colName = some [])
    (hidx : df.index = []) :
    (translateColumn df colName svc).requests = [] ∧
    (translateColumn df colName svc).notes = [] ∧
    (translateColumn df colName svc).finalNote = some 0 ∧
    (translateColumn df colName svc).result = .ok [] := by
  refine ⟨?_, ?_, ?_, ?_⟩ <;> simp [translateColumn, hcol, hidx, runLoop, mkSeries]

/-- C7: `translate_column` never modifies the input dataframe: in the
state-passing embedding the dataframe after the call — its index and all
its pre-existing columns — is the dataframe passed in. -/
theorem dataset_not_modified (df : DataFrame) (colName : String) (svc : Service) :
    (translateColumn df colName svc).dfAfter = df ∧
    (translateColumn df colName svc).dfAfter.index = df.index ∧
    (translateColumn df colName svc).dfAfter.columns = df.columns := by
  have h : (translateColumn df colName svc).dfAfter = df := by
    cases hc : getCol df colName with
    | none => simp [translateColumn, hc]
    | some texts => simp [translateColumn, hc]
  exact ⟨h, by rw [h], by rw [h]⟩

/-- C8: every request a run issues carries the static `safety_config`
value unchanged, and that value sets all four harm categories (dangerous
content, harassment, hate speech, sexually explicit) to block nothing. -/
theorem safety_policy_static (df : DataFrame) (colName : String) (svc : Service) :
    (∀ req ∈ (translateColumn df colName svc).requests,
      req.safetySettings = safety_config) ∧
    safety_config.map SafetySetting.category =
      [.dangerousContent, .harassment, .hateSpeech, .sexuallyExplicit] ∧
    (∀ s ∈ safety_config, s.threshold = .blockNone) := by
  refine ⟨?_, rfl, by decide⟩
  intro req hreq
  cases hc : getCol df colName with
  | none => simp [translateColumn, hc] at hreq
  | some texts =>
      simp only [translateColumn, hc] at hreq
      exact runLoop_requests_safety svc texts 0 [] 0 req hreq

/-- C5: the stored result for a row is the service's response text trimmed
exactly once: the response decomposes as leading whitespace ++ stored text
++ trailing whitespace with internal whitespace intact (the stored text is
a contiguous substring), the stored text has no whitespace at either end,
and a second trim changes nothing. -/
theorem response_trimmed_once (r t : String) :
    (translateColumn ⟨[0], [("comment_text", [t])]⟩ "comment_text"
        (fun _ _ => .ok r)).result = .ok [(0, pyStrip r)] ∧
    (∃ pre suf : List Char,
      r.data = pre ++ (pyStrip r).data ++ suf ∧
      (∀ c ∈ pre, isPySpace c = true) ∧ (∀ c ∈ suf, isPySpace c = true)) ∧
    (∀ c, (pyStrip r).data.head? = some c → isPySpace c = false) ∧
    (∀ c, (pyStrip r).data.getLast? = some c → isPySpace c = false) ∧
    pyStrip (pyStrip r) = pyStrip r := by
  refine ⟨?_, pyStrip_decomp r, fun c hc => pyStrip_head r hc,
    fun c hc => pyStrip_last r hc, pyStrip_idem r⟩
  have hcol : getCol ⟨[0], [("comment_text", [t])]⟩ "comment_text" = some [t] := rfl
  simp only [translateColumn, hcol]
  simp [runLoop, mkSeries]

/-- C6: prompt rendering is deterministic — rendering the same source text
twice against the fixed template yields identical prompt strings. -/
theorem prompt_rendering_deterministic (t₁ t₂ : String) (h : t₁ = t₂) :
    renderPrompt t₁ = renderPrompt t₂ := by
  rw [h]


/-- C1 witness: the two-row all-succeeding run. -/
theorem translate_success_alignment_witness :
    ∃ ser : Series,
      (translateColumn dfTwo "comment_text" svcOk).result = .ok ser ∧
      ser.length = (["ก", "ข"] : List String).length ∧
      ∀ j (hj : j < (["ก", "ข"] : List String).length) (hj1 : j < ser.length)
        (hj2 : j < dfTwo.index.length),
        ser.get ⟨j, hj1⟩ =
          (dfTwo.index.get ⟨j, hj2⟩,
            pyStrip (okD (svcOk j (renderPrompt ((["ก", "ข"] : List String).get ⟨j, hj⟩))))) :=
  translate_success_alignment dfTwo "comment_text" svcOk ["ก", "ข"] rfl rfl
    (fun j hj => rfl)

/-- C2 witness: failure at row 1 of the two-row run. -/
theorem translate_failure_aborts_witness :
    (translateColumn dfTwo "comment_text" svcFailAt1).result =
      .error (.serviceErr "quota") ∧
    (translateColumn dfTwo "comment_text" svcFailAt1).finalNote = none ∧
    (translateColumn dfTwo "comment_text" svcFailAt1).requests =
      ((["ก", "ข"] : List String).take 2).map mkReq :=
  translate_failure_aborts dfTwo "comment_text" svcFailAt1 ["ก", "ข"] 1
    (.serviceErr "quota") rfl (by decide)
    (fun k hk => by
      have hk0 : k = 0 := by omega
      subst hk0
      rfl)
    rfl

/-- C3 witness: the 100-row all-succeeding run at k equal 1. -/
theorem progress_milestone_counts_witness :
    ((translateColumn dfHundred "comment_text" svcOk).notes ++
      (translateColumn dfHundred "comment_text" svcOk).finalNote.toList).count
        (100 * 1) = 1 ∧
    (translateColumn dfHundred "comment_text" svcOk).finalNote =
      some (List.replicate 100 "ข").length :=
  progress_milestone_counts dfHundred "comment_text" svcOk (List.replicate 100 "ข") 1
    rfl (fun j hj => rfl) (by decide) (by simp)

/-- C9 witness: the 100-row all-succeeding run at m equal 1. -/
theorem milestone_requires_subsequent_row_witness :
    (∀ c ∈ (translateColumn dfHundred "comment_text" svcOk).notes,
      c < (List.replicate 100 "ข").length) ∧
    100 * 1 ∉ (translateColumn dfHundred "comment_text" svcOk).notes ∧
    (translateColumn dfHundred "comment_text" svcOk).finalNote = some (100 * 1) :=
  milestone_requires_subsequent_row dfHundred "comment_text" svcOk
    (List.replicate 100 "ข") 1 rfl (fun j hj => rfl) (by decide) (by simp)

/-- C10 witness: the empty dataframe. -/
theorem empty_column_run_witness :
    (translateColumn dfEmpty "comment_text" svcOk).requests = [] ∧
    (translateColumn dfEmpty "comment_text" svcOk).notes = [] ∧
    (translateColumn dfEmpty "comment_text" svcOk).finalNote = some 0 ∧
    (translateColumn dfEmpty "comment_text" svcOk).result = .ok [] :=
  empty_column_run dfEmpty "comment_text" svcOk rfl rfl

/-- C5 witness: response `" Hi "` on a one-row run. -/
theorem response_trimmed_once_witness :
    (translateColumn ⟨[0], [("comment_text", ["x"])]⟩ "comment_text"
        (fun _ _ => .ok " Hi ")).result = .ok [(0, pyStrip " Hi ")] ∧
    pyStrip (pyStrip " Hi ") = pyStrip " Hi " :=
  ⟨(response_trimmed_once " Hi " "x").1, (response_trimmed_once " Hi " "x").2.2.2.2⟩

/-- C6 witness: a concrete source text. -/
theorem prompt_rendering_deterministic_witness :
    renderPrompt "สวัสดี" = renderPrompt "สวัสดี" :=
  prompt_rendering_deterministic "สวัสดี" "สวัสดี" rfl

/-- C8 witness: a request of the two-row run carries the static policy. -/
theorem safety_policy_static_witness :
    (mkReq "ก").safetySettings = safety_config ∧
    (∀ s ∈ safety_config, s.threshold = HarmBlockThreshold.blockNone) := by
  refine ⟨?_, (safety_policy_static dfTwo "comment_text" svcOk).2.2⟩
  refine (safety_policy_static dfTwo "comment_text" svcOk).1 (mkReq "ก") ?_
  have hreq : (translateColumn dfTwo "comment_text" svcOk).requests =
      [mkReq "ก", mkReq "ข"] := rfl
  rw [hreq]
  exact List.mem_cons_self _ _


end VertexTranslation
